import Mathlib

/-!
Verification development for the payment-verification and idempotent-ledger
subsystem of the ai-backend repository.

Shallow embedding conventions:
* JavaScript numbers that hold currency amounts are modelled as rationals
  (`ℚ`); `parseFloat` of an amount string is modelled by carrying the parsed
  rational directly.
* TypeScript string-union status fields (such as the capture status union) are modelled as
  `String`, compared against the same literals the source compares against.
* Thrown `Error` values are modelled as structured error types together with a
  message-rendering function, because the source dispatches on
  `error.message.includes(...)`; `includes` is modelled by `strIncludes`.
* `async` functions become pure functions; the external PayPal HTTP API is an
  oracle (`Provider`) giving, per id, the post-retry outcome of
  `verifyPayPalCapture` / `verifyPayPalOrder`.
-/

namespace AiBackend

/-- JavaScript `haystack.includes(needle)` on strings. -/
def strIncludes (needle hay : String) : Bool :=
  hay.toList.tails.any (fun t => needle.toList.isPrefixOf t)

/-! ## Data model (src/services/paypalService.ts, interfaces at lines 14-41) -/

/-- The `amount` object of a PayPal capture: `{ currency_code, value }`.
`value` is the rational parsed from the amount string by `parseFloat`. -/
structure PayPalAmount where
  currency_code : String
  value : ℚ
deriving DecidableEq

/-- `PayPalCaptureDetails` (paypalService.ts lines 20-31); only the fields the
verification logic reads. `status` keeps the string representation of the source. -/
structure PayPalCaptureDetails where
  id : String
  status : String
  amount : PayPalAmount
deriving DecidableEq

/-- One entry of `purchase_units`; `captures` models the optional chain
`payments?.captures` (absent ⇒ `none`). -/
structure PurchaseUnit where
  captures : Option (List PayPalCaptureDetails)
deriving DecidableEq

/-- `PayPalOrderResponse` (paypalService.ts lines 33-41). -/
structure PayPalOrderResponse where
  id : String
  status : String
  purchase_units : List PurchaseUnit
deriving DecidableEq

/-- `orderDetails.purchase_units?.[0]?.payments?.captures` followed by the
`!captures || captures.length === 0` guard and `captures[0]`
(paypalService.ts lines 384-390). -/
def orderFirstCapture (od : PayPalOrderResponse) : Option PayPalCaptureDetails :=
  match od.purchase_units.head? with
  | none => none
  | some u =>
    match u.captures with
    | none => none
    | some cs => cs.head?

/-! ## Error model

`verifyPayPalCapture` throws (after its retry loop, lines 222-259):
a 404-specific error, a service-unavailable error, or a generic status error;
its catch block rethrows the caught error unchanged (line 285).
`verifyPayPalOrder` throws analogously but WITHOUT a 404-specific branch, and
its catch block wraps every error as
`Failed to verify PayPal order: <inner message>` (line 203). -/

/-- Post-retry failure of `verifyPayPalCapture` (paypalService.ts 207-287). -/
inductive CaptureErr where
  | notFound
  | unavailable
  | http (status : Nat)
  | network (msg : String)
deriving DecidableEq

/-- Post-retry failure of `verifyPayPalOrder` (paypalService.ts 137-205).
`auth s` is an authentication failure propagated from `getAccessToken`
(called at line 138, outside the try block, hence not wrapped). -/
inductive OrderErr where
  | unavailable
  | httpStatus (status : Nat)
  | network (msg : String)
  | auth (status : Nat)
deriving DecidableEq

/-- The `message` of the `Error` thrown by `verifyPayPalOrder`, as built at
paypalService.ts lines 182, 185, 203 (all wrapped by the catch at line 203
except the `getAccessToken` failure, which is raised before the try block). -/
def orderErrMessage : OrderErr → String
  | .unavailable =>
      "Failed to verify PayPal order: PayPal service is currently unavailable. Please try again in a few moments."
  | .httpStatus s =>
      "Failed to verify PayPal order: PayPal order verification failed: " ++ toString s
  | .network m => "Failed to verify PayPal order: " ++ m
  | .auth s =>
      "Failed to authenticate with PayPal: PayPal authentication failed: " ++ toString s ++
      ". Check that your PAYPAL_CLIENT_ID and PAYPAL_CLIENT_SECRET are correct and match the environment (sandbox/production)."

/-- The `is404` test of `verifyPayPalPayment` (paypalService.ts line 426):
the message includes `404` or includes `RESOURCE_NOT_FOUND`. -/
def orderErrIs404 (e : OrderErr) : Bool :=
  strIncludes "404" (orderErrMessage e) || strIncludes "RESOURCE_NOT_FOUND" (orderErrMessage e)

/-- Oracle for the external PayPal API: for each id, the post-retry outcome of
`verifyPayPalCapture` / `verifyPayPalOrder`. -/
structure Provider where
  fetchCapture : String → Except CaptureErr PayPalCaptureDetails
  fetchOrder : String → Except OrderErr PayPalOrderResponse

/-- The value returned by `verifyPayPalPayment`
(`{ verified, captureDetails?, orderDetails? }`). -/
structure VerificationResult where
  verified : Bool
  captureDetails : Option PayPalCaptureDetails
  orderDetails : Option PayPalOrderResponse
deriving DecidableEq

/-- Failures thrown by `verifyPayPalPayment` (paypalService.ts lines 424-444):
the environment-mismatch error (both capture and order missing, line 430), the
order-only not-found error (line 431), or the rethrown order error (line 443). -/
inductive VerifyErr where
  | environmentMismatch (captureId orderId : String)
  | orderNotFound (orderId : String)
  | other (e : OrderErr)
deriving DecidableEq

/-- The `message` of the `Error` thrown by `verifyPayPalPayment`
(paypalService.ts lines 429-431 and 443). -/
def verifyErrMessage : VerifyErr → String
  | .environmentMismatch cid oid =>
      "Payment verification failed: Both capture (" ++ cid ++ ") and order (" ++ oid ++
      ") not found in PayPal. This indicates an environment mismatch - the payment was created with different PayPal credentials than the server is using. Please ensure your frontend PayPal Client ID and backend PayPal credentials are from the same PayPal app and environment (both sandbox or both production)."
  | .orderNotFound oid =>
      "Payment verification failed: Order (" ++ oid ++
      ") not found in PayPal. This may happen if the order was created in a different environment (sandbox vs production). Please ensure your PayPal credentials match the environment used for payment."
  | .other e => orderErrMessage e

/-- `verifyPayPalPayment` (paypalService.ts lines 289-445).

Strategy 1 (lines 307-371): with a `captureId`, fetch the capture; any fetch
error falls through to strategy 2. On success: non-`COMPLETED` status, currency
mismatch, or amount difference above `0.01` each return `verified: false` with
the capture snapshot; otherwise a best-effort order fetch (failure ignored) and
`verified: true`.

Strategy 2 (lines 373-445): fetch the order. Non-`COMPLETED` order, missing
first capture, non-`COMPLETED` capture, currency mismatch, or amount mismatch
return `verified: false`; all checks passing returns `verified: true`. An order
fetch error whose message includes `404`/`RESOURCE_NOT_FOUND` throws the
environment-mismatch error when a `captureId` was supplied and the order-only
not-found error otherwise; any other order error is rethrown. -/
def verifyPayPalPayment (p : Provider) (orderId : String) (expectedAmount : ℚ)
    (expectedCurrency : String) (captureId : Option String) :
    Except VerifyErr VerificationResult :=
  let strategy2 : Except VerifyErr VerificationResult :=
    match p.fetchOrder orderId with
    | .ok od =>
      if od.status ≠ "COMPLETED" then .ok ⟨false, none, some od⟩
      else
        match orderFirstCapture od with
        | none => .ok ⟨false, none, some od⟩
        | some cd =>
          if cd.status ≠ "COMPLETED" then .ok ⟨false, some cd, some od⟩
          else if cd.amount.currency_code ≠ expectedCurrency then .ok ⟨false, some cd, some od⟩
          else if |cd.amount.value - expectedAmount| > (0.01 : ℚ) then .ok ⟨false, some cd, some od⟩
          else .ok ⟨true, some cd, some od⟩
    | .error e =>
      if orderErrIs404 e then
        match captureId with
        | some cid => .error (.environmentMismatch cid orderId)
        | none => .error (.orderNotFound orderId)
      else .error (.other e)
  match captureId with
  | none => strategy2
  | some cid =>
    match p.fetchCapture cid with
    | .error _ => strategy2
    | .ok cd =>
      if cd.status ≠ "COMPLETED" then .ok ⟨false, some cd, none⟩
      else if cd.amount.currency_code ≠ expectedCurrency then .ok ⟨false, some cd, none⟩
      else if |cd.amount.value - expectedAmount| > (0.01 : ℚ) then .ok ⟨false, some cd, none⟩
      else
        let od? : Option PayPalOrderResponse :=
          match p.fetchOrder orderId with
          | .ok o => some o
          | .error _ => none
        .ok ⟨true, some cd, od?⟩

/-! ## Ledger / handler model (`recordPayPalPayment`, controllers file lines 9-189)

The user and payment stores are modelled as in-memory lists. The mongoose
unique index `PaymentSchema.index({ provider: 1, externalId: 1 }, { unique:
true, sparse: true })` (models/Payment.ts line 31) is modelled by the insert
step failing with the duplicate-key condition whenever a record with the same
`(provider, externalId)` pair is already present. -/

/-- A user document; only the fields the payment flow touches. -/
structure User where
  id : String
  balance : ℚ
deriving DecidableEq

/-- A payment document (models/Payment.ts lines 6-29) together with the
metadata fields written by `recordPayPalPayment` (lines 150-157). -/
structure PaymentRecord where
  user : String
  provider : String
  amount : ℚ
  currency : String
  status : String
  externalId : String
  metaCaptureId : Option String
  metaVerified : Bool
  metaVerificationSkipped : Bool
  metaSandbox : Bool
deriving DecidableEq

/-- The persistent store: user documents and payment documents. -/
structure Store where
  users : List User
  payments : List PaymentRecord
deriving DecidableEq

/-- `user.save()`: persist the in-memory user document, overwriting the stored
document with the same id. -/
def saveUser (s : Store) (u : User) : Store :=
  { s with users := s.users.map (fun v => if v.id = u.id then u else v) }

/-- The PayPal-related part of `env` (config file lines 487-488). -/
structure Env where
  paypalSkipVerification : Bool
  paypalUseSandbox : Bool

/-- The request body of `recordPayPalPayment`. `amount` is the result of
`Number(amount)` with `none` standing for a non-finite result (`NaN`, `±∞`);
`orderId` is `none` when absent or not a string (the `typeof` check). -/
structure PaymentBody where
  amount : Option ℚ
  currency : String
  orderId : Option String
  captureId : Option String
deriving DecidableEq

/-- Observable outcome of one `recordPayPalPayment` request: the HTTP status
sent, the `balance` field of the JSON response (when present), the store after
the request, and whether any PayPal network call was made. -/
structure RecordOutcome where
  status : Nat
  balance : Option ℚ
  store : Store
  providerCalled : Bool
deriving DecidableEq

/-- Balance-unit migration (controllers file lines 31-40): a stored balance
above 1000 is treated as legacy minor units, divided by 1000 and persisted via
`user.save()`; otherwise the user is returned unchanged and nothing is saved. -/
def normalizeUserStep (s : Store) (u : User) : User × Store :=
  if u.balance > 1000 then
    let u2 : User := { u with balance := u.balance / 1000 }
    (u2, saveUser s u2)
  else (u, s)

/-- Minor-unit → major-unit conversion of the submitted amount
(controllers file line 55: `parsedAmount / 1000`). -/
def amountInPounds (parsedAmount : ℚ) : ℚ := parsedAmount / 1000

/-- Mapping from a verification failure to the HTTP status sent by the catch
block of `recordPayPalPayment` (controllers file lines 82-124): permission
problems and everything else map to 502, service-unavailable to 503. -/
def verifyErrStatus (e : VerifyErr) : Nat :=
  let m := verifyErrMessage e
  if strIncludes "401" m || strIncludes "NOT_AUTHORIZED" m ||
      strIncludes "insufficient permissions" m then 502
  else if strIncludes "SERVICE_UNAVAILABLE" m ||
      strIncludes "service is currently unavailable" m then 503
  else 502

/-- Insert-and-credit phase of `recordPayPalPayment` (lines 142-185), entered
after verification succeeded. `PaymentModel.create` is attempted; if the store
already holds a record with the same `(provider, externalId)` pair the
duplicate-key error (`code 11000`) is caught, the user is re-read and the
current balance is returned with status 200 and no credit (lines 159-168).
Otherwise the record is appended, the in-memory user balance is incremented by
the major-unit amount and saved (lines 171-173), and status 200 is returned
with the new balance. -/
def insertAndCredit (uid : String) (pounds : ℚ) (newRecord : PaymentRecord)
    (user : User) (s1 : Store) (called : Bool) : RecordOutcome :=
  if s1.payments.any (fun r => r.provider == "paypal" && r.externalId == newRecord.externalId) then
    let bal : ℚ :=
      match s1.users.find? (fun v => v.id == uid) with
      | some uu => uu.balance
      | none => user.balance
    ⟨200, some bal, s1, called⟩
  else
    let s2 : Store := { s1 with payments := s1.payments ++ [newRecord] }
    let user2 : User := { user with balance := user.balance + pounds }
    ⟨200, some user2.balance, saveUser s2 user2, called⟩

/-- `recordPayPalPayment` (controllers file lines 9-189), for an authenticated
request (`req.user` present, id `uid`).

Order of operations, as in the source: amount validation (lines 17-20), orderId
validation (lines 22-24), user lookup (lines 26-29), legacy balance
normalization (lines 31-40), duplicate pre-check by `externalId` alone
returning 409 with the current balance (lines 43-50), unit conversion
(line 55), verification — skipped entirely when
`env.paypalSkipVerification && env.paypalUseSandbox` (lines 57-65), otherwise
`verifyPayPalPayment` (lines 76-81) with thrown failures mapped to an HTTP
status (lines 82-124) and unverified results mapped to 402 (lines 126-136) —
then the insert-and-credit phase (lines 142-185). -/
def recordPayPalPayment (envc : Env) (p : Provider) (uid : String)
    (body : PaymentBody) (s : Store) : RecordOutcome :=
  match body.amount with
  | none => ⟨400, none, s, false⟩
  | some parsedAmount =>
    if parsedAmount ≤ 0 then ⟨400, none, s, false⟩
    else
      match body.orderId with
      | none => ⟨400, none, s, false⟩
      | some orderId =>
        if orderId = "" then ⟨400, none, s, false⟩
        else
          match s.users.find? (fun v => v.id == uid) with
          | none => ⟨404, none, s, false⟩
          | some user0 =>
            let ns := normalizeUserStep s user0
            let user := ns.1
            let s1 := ns.2
            match s1.payments.find? (fun r => r.externalId == orderId) with
            | some _ => ⟨409, some user.balance, s1, false⟩
            | none =>
              let pounds := amountInPounds parsedAmount
              let vres : Except VerifyErr VerificationResult × Bool :=
                if envc.paypalSkipVerification && envc.paypalUseSandbox then
                  (.ok ⟨true, none, none⟩, false)
                else
                  (verifyPayPalPayment p orderId pounds body.currency body.captureId, true)
              match vres with
              | (.error e, called) => ⟨verifyErrStatus e, none, s1, called⟩
              | (.ok vr, called) =>
                if vr.verified = false then ⟨402, none, s1, called⟩
                else
                  let newRecord : PaymentRecord :=
                    ⟨uid, "paypal", parsedAmount, body.currency, "completed", orderId,
                      (match vr.captureDetails with
                       | some cd => some cd.id
                       | none => body.captureId),
                      !envc.paypalSkipVerification,
                      envc.paypalSkipVerification && envc.paypalUseSandbox,
                      envc.paypalUseSandbox⟩
                  insertAndCredit uid pounds newRecord user s1 called

/-! ## Retry loops (paypalService.ts)

The three provider calls each loop on transient failures. The loops are
modelled against a response schedule `resp : Nat → FetchAttempt _` giving the
outcome of the HTTP attempt made at each `retryCount`. The order and capture
loops carry the guard `retryCount < maxRetries` (`maxRetries = 3`) on every
retry branch and hence terminate; `getAccessToken` omits that guard on the
`response.status === 503` disjunct (line 89:
checking `response.status` equal to 503 OR the error body name equal to
SERVICE_UNAVAILABLE with `retryCount < maxRetries`), so it is modelled with explicit fuel, `none`
meaning the recursion is still running after `fuel` attempts. Each loop also
returns the list of backoff delays slept, each `1000 * (retryCount + 1)`
milliseconds. -/

/-- Outcome of one raw HTTP attempt: a parsed success body, a non-2xx response
with its status and the optional `name` field of the parsed error body, or a
thrown low-level error with its message (retried only when the message
includes `fetch` or `network`). -/
inductive FetchAttempt (α : Type) where
  | success (body : α)
  | httpError (status : Nat) (errName : Option String)
  | networkError (msg : String)

/-- Failures of `getAccessToken` (paypalService.ts 49-135): a rejected
credential exchange (line 105) or an exhausted network-error retry (line 133). -/
inductive TokenErr where
  | authFailed (status : Nat)
  | network (msg : String)
deriving DecidableEq

/-- `getAccessToken` retry loop (paypalService.ts lines 49-135), with fuel.
`none` means the recursion has not returned after `fuel` attempts. The 503
retry branch reproduces the source condition verbatim: a 503 retries
regardless of `retryCount`, while the `SERVICE_UNAVAILABLE` body name and
network errors retry only while `retryCount < 3`. The delay slept before a
retry is `1000 * (retryCount + 1)`. -/
def getAccessTokenLoop (resp : Nat → FetchAttempt String) :
    Nat → Nat → Option (Except TokenErr String × List Nat)
  | 0, _ => none
  | fuel + 1, retryCount =>
    match resp retryCount with
    | .success tok => some (.ok tok, [])
    | .httpError s name =>
      if s = 503 ∨ (name = some "SERVICE_UNAVAILABLE" ∧ retryCount < 3) then
        match getAccessTokenLoop resp fuel (retryCount + 1) with
        | none => none
        | some (r, ds) => some (r, 1000 * (retryCount + 1) :: ds)
      else some (.error (.authFailed s), [])
    | .networkError m =>
      if retryCount < 3 ∧ (strIncludes "fetch" m || strIncludes "network" m) = true then
        match getAccessTokenLoop resp fuel (retryCount + 1) with
        | none => none
        | some (r, ds) => some (r, 1000 * (retryCount + 1) :: ds)
      else some (.error (.network m), [])

/-- `verifyPayPalOrder` retry loop (paypalService.ts lines 137-205). Both
retry branches carry `retryCount < 3`, so the function is total: the
well-founded recursion on `4 - retryCount` is exactly the termination
argument. Non-retryable failures map to `OrderErr` as thrown by the source
(SERVICE_UNAVAILABLE body → unavailable, other non-2xx → httpStatus,
exhausted network error → network). -/
def verifyPayPalOrderLoop (resp : Nat → FetchAttempt PayPalOrderResponse)
    (retryCount : Nat) : Except OrderErr PayPalOrderResponse × List Nat :=
  match resp retryCount with
  | .success od => (.ok od, [])
  | .httpError s name =>
    if h : (s = 503 ∨ name = some "SERVICE_UNAVAILABLE") ∧ retryCount < 3 then
      let r := verifyPayPalOrderLoop resp (retryCount + 1)
      (r.1, 1000 * (retryCount + 1) :: r.2)
    else if name = some "SERVICE_UNAVAILABLE" then (.error .unavailable, [])
    else (.error (.httpStatus s), [])
  | .networkError m =>
    if h : retryCount < 3 ∧ (strIncludes "fetch" m || strIncludes "network" m) = true then
      let r := verifyPayPalOrderLoop resp (retryCount + 1)
      (r.1, 1000 * (retryCount + 1) :: r.2)
    else (.error (.network m), [])
termination_by 4 - retryCount
decreasing_by
  all_goals omega

/-- `verifyPayPalCapture` retry loop (paypalService.ts lines 207-287); same
bounded shape as the order loop, with a dedicated 404 branch (line 251)
checked before the SERVICE_UNAVAILABLE branch. -/
def verifyPayPalCaptureLoop (resp : Nat → FetchAttempt PayPalCaptureDetails)
    (retryCount : Nat) : Except CaptureErr PayPalCaptureDetails × List Nat :=
  match resp retryCount with
  | .success cd => (.ok cd, [])
  | .httpError s name =>
    if h : (s = 503 ∨ name = some "SERVICE_UNAVAILABLE") ∧ retryCount < 3 then
      let r := verifyPayPalCaptureLoop resp (retryCount + 1)
      (r.1, 1000 * (retryCount + 1) :: r.2)
    else if s = 404 then (.error .notFound, [])
    else if name = some "SERVICE_UNAVAILABLE" then (.error .unavailable, [])
    else (.error (.http s), [])
  | .networkError m =>
    if h : retryCount < 3 ∧ (strIncludes "fetch" m || strIncludes "network" m) = true then
      let r := verifyPayPalCaptureLoop resp (retryCount + 1)
      (r.1, 1000 * (retryCount + 1) :: r.2)
    else (.error (.network m), [])
termination_by 4 - retryCount
decreasing_by
  all_goals omega

/-- A provider that answers every attempt with a bare HTTP 503 (no parsed
error-body name). -/
def all503 {α : Type} : Nat → FetchAttempt α := fun _ => .httpError 503 none

/-! ## Concurrent two-worker model

Each payment-verification request runs in an independent event-loop task; the
only shared state is the store. A worker is the sequence of store operations
performed by one `recordPayPalPayment` request whose verification succeeds:

* `pFind`    — `UserModel.findById` (line 26): read the balance into the
               in-memory user document;
* `pNorm`    — legacy normalization (lines 31-40): if the local balance
               exceeds 1000, divide by 1000 and `save()`;
* `pCheck`   — duplicate pre-check by `externalId` (line 43): if found,
               finish with 409;
* `pInsert`  — `PaymentModel.create` (line 143): fails with the duplicate-key
               condition when the `(provider, externalId)` pair is already
               present (unique index, Payment.ts line 31);
* `pRace`    — duplicate-key recovery (lines 160-166): re-read the balance and
               finish with 200;
* `pCredit`  — `user.balance += amountInPounds; user.save()` (lines 171-173):
               a read-modify-write against the balance read at `pFind`/`pNorm`.

Verification itself touches no store state and is elided between `pCheck` and
`pInsert` (both workers are assumed to carry provider-verified payments).
`didInsert`/`didCredit` record whether the worker performed the insert /
credit. -/

/-- Store as seen by the concurrent model: one account balance plus the
`(provider, externalId)` pairs of the inserted payment records. -/
structure CStore where
  balance : ℚ
  pairs : List (String × String)
deriving DecidableEq

/-- Per-worker request parameters: the external order id and the major-unit
credit amount. -/
structure WCfg where
  externalId : String
  amt : ℚ
deriving DecidableEq

/-- Control point of a worker between two store operations. -/
inductive WPhase where
  | pFind
  | pNorm
  | pCheck
  | pInsert
  | pRace
  | pCredit
  | pDone (status : Nat)
deriving DecidableEq

/-- A worker: its request parameters, control point, in-memory copy of the
user balance, and ghost flags recording a performed insert / credit. -/
structure WState where
  cfg : WCfg
  phase : WPhase
  localBal : ℚ
  didInsert : Bool
  didCredit : Bool
deriving DecidableEq

/-- One atomic store operation of a worker (see the phase table above). A
worker in `pDone` is stuck. -/
def wstep (w : WState) (s : CStore) : WState × CStore :=
  match w.phase with
  | .pFind => ({ w with phase := .pNorm, localBal := s.balance }, s)
  | .pNorm =>
    if w.localBal > 1000 then
      let b := w.localBal / 1000
      ({ w with phase := .pCheck, localBal := b }, { s with balance := b })
    else ({ w with phase := .pCheck }, s)
  | .pCheck =>
    if s.pairs.any (fun pr => pr.2 == w.cfg.externalId) then
      ({ w with phase := .pDone 409 }, s)
    else ({ w with phase := .pInsert }, s)
  | .pInsert =>
    if s.pairs.any (fun pr => pr == ("paypal", w.cfg.externalId)) then
      ({ w with phase := .pRace }, s)
    else
      ({ w with phase := .pCredit, didInsert := true },
       { s with pairs := s.pairs ++ [("paypal", w.cfg.externalId)] })
  | .pRace => ({ w with phase := .pDone 200, localBal := s.balance }, s)
  | .pCredit =>
    let b := w.localBal + w.cfg.amt
    ({ w with phase := .pDone 200, localBal := b, didCredit := true },
     { s with balance := b })
  | .pDone _ => (w, s)

/-- Run two workers under a schedule: `true` steps worker `a`, `false` steps
worker `b`. -/
def crun : List Bool → WState → WState → CStore → WState × WState × CStore
  | [], a, b, s => (a, b, s)
  | t :: ts, a, b, s =>
    if t then
      let as2 := wstep a s
      crun ts as2.1 b as2.2
    else
      let bs2 := wstep b s
      crun ts a bs2.1 bs2.2

/-- Fresh worker for external order id `e` crediting `amt` major units. -/
def initWorker (e : String) (amt : ℚ) : WState :=
  ⟨⟨e, amt⟩, .pFind, 0, false, false⟩

/-- Count a `Bool` ghost flag. -/
def b2n (b : Bool) : Nat := if b then 1 else 0

/-- Every stored pair whose external id is `e` is the canonical
`("paypal", e)` pair (true initially because no pair carries `e`, and all
inserts add the canonical pair). -/
def pairCanon (e : String) (s : CStore) : Prop :=
  ∀ pr ∈ s.pairs, pr.2 = e → pr = ("paypal", e)

/-- Per-worker invariant of the two-worker run for external id `e`. -/
def WInv (e : String) (w : WState) (s : CStore) : Prop :=
  w.cfg.externalId = e ∧
  (w.phase = .pRace → ("paypal", e) ∈ s.pairs) ∧
  (∀ st, w.phase = .pDone st → w.didInsert = w.didCredit) ∧
  (∀ st, w.phase = .pDone st → w.didInsert = false → ("paypal", e) ∈ s.pairs) ∧
  (w.didCredit = true → w.didInsert = true) ∧
  (w.phase = .pCredit → w.didInsert = true ∧ w.didCredit = false) ∧
  (w.phase = .pRace → w.didInsert = false ∧ w.didCredit = false) ∧
  (w.phase = .pFind ∨ w.phase = .pNorm ∨ w.phase = .pCheck ∨ w.phase = .pInsert →
    w.didInsert = false ∧ w.didCredit = false)

/-- Joint invariant: both worker invariants, canonicity of stored pairs, and
the count of the canonical pair equals the number of performed inserts and
never exceeds one. -/
def Inv (e : String) (a b : WState) (s : CStore) : Prop :=
  WInv e a s ∧ WInv e b s ∧ pairCanon e s ∧
  s.pairs.count ("paypal", e) = b2n a.didInsert + b2n b.didInsert ∧
  s.pairs.count ("paypal", e) ≤ 1

/-! ## Concrete fixtures (for witnesses and counterexamples) -/

/-- Completed 5.00 GBP capture. -/
def cdOkW : PayPalCaptureDetails := ⟨"C1", "COMPLETED", ⟨"GBP", 5⟩⟩

/-- Completed order containing `cdOkW`. -/
def odOkW : PayPalOrderResponse := ⟨"O1", "COMPLETED", [⟨some [cdOkW]⟩]⟩

/-- Provider answering both lookups successfully. -/
def pOkW : Provider := ⟨fun _ => .ok cdOkW, fun _ => .ok odOkW⟩

/-- Provider whose capture lookup 404s but whose order lookup succeeds. -/
def pFallbackW : Provider := ⟨fun _ => .error .notFound, fun _ => .ok odOkW⟩

/-- Provider on which both lookups fail with a 404. -/
def pMissW : Provider := ⟨fun _ => .error .notFound, fun _ => .error (.httpStatus 404)⟩

/-- Completed 2000.00 GBP capture (2000000 minor units). -/
def cdBig : PayPalCaptureDetails := ⟨"CAP1", "COMPLETED", ⟨"GBP", 2000⟩⟩

/-- Completed order containing `cdBig`. -/
def odBig : PayPalOrderResponse := ⟨"O1", "COMPLETED", [⟨some [cdBig]⟩]⟩

/-- Provider confirming order `O1` for 2000.00 GBP. -/
def pBig : Provider := ⟨fun _ => .error .notFound, fun _ => .ok odBig⟩

/-- Sandbox environment with verification NOT skipped. -/
def envNoSkip : Env := ⟨false, true⟩

/-- Submission of 2000000 minor units (2000 pounds) for order `O1`. -/
def bodyBig : PaymentBody := ⟨some 2000000, "GBP", some "O1", none⟩

/-- Store with one user `u1` of balance 0 and no payments. -/
def storeFresh : Store := ⟨[⟨"u1", 0⟩], []⟩

/-- An already-recorded payment for order `O1`. -/
def recO1 : PaymentRecord :=
  ⟨"u1", "paypal", 2000000, "GBP", "completed", "O1", some "CAP1", true, false, true⟩

/-- Store in which order `O1` is already recorded. -/
def storeDup : Store := ⟨[⟨"u1", 50⟩], [recO1]⟩

/-- Store whose user carries a legacy minor-unit balance of 40050. -/
def storeLegacy : Store := ⟨[⟨"u1", 40050⟩], [recO1]⟩

/-- Submission of 5000 minor units (5 pounds) for order `O9`. -/
def bodySkip : PaymentBody := ⟨some 5000, "GBP", some "O9", some "CAP9"⟩

/-- Store with one user `u1` of balance 100 and no payments. -/
def storeSkip : Store := ⟨[⟨"u1", 100⟩], []⟩

/-- Request body with a non-finite amount. -/
def bodyBad : PaymentBody := ⟨none, "GBP", some "O1", none⟩

/-- Schedule interleaving two workers so that both read the balance before
either writes it: worker a runs to completion between the two reads and
worker b then overwrites the credit made by a. -/
def schedLost : List Bool :=
  [true, false, true, true, true, true, false, false, false, false]

/-- A schedule running worker a to completion, then worker b. -/
def schedSeq : List Bool :=
  [true, true, true, true, true, false, false, false, false, false]

/-- Completed 5.00 GBP capture inside order `O5`. -/
def cdW5 : PayPalCaptureDetails := ⟨"CAP5", "COMPLETED", ⟨"GBP", 5⟩⟩

/-- Completed order `O5` containing `cdW5`. -/
def odW5 : PayPalOrderResponse := ⟨"O5", "COMPLETED", [⟨some [cdW5]⟩]⟩

/-- Provider confirming order `O5` for 5.00 GBP. -/
def pW5 : Provider := ⟨fun _ => .error .notFound, fun _ => .ok odW5⟩

/-- Submission of 5000 minor units for order `O5`, no capture id. -/
def bodyW5 : PaymentBody := ⟨some 5000, "GBP", some "O5", none⟩

/-! ## Helper lemmas -/

/-- Normalization only rewrites the user documents; the payment collection is
untouched. -/
theorem normalizeUserStep_payments (s : Store) (u : User) :
    (normalizeUserStep s u).2.payments = s.payments := by
  unfold normalizeUserStep saveUser
  split <;> rfl

/-- Normalization does not change the user id. -/
theorem normalizeUserStep_id (s : Store) (u : User) :
    (normalizeUserStep s u).1.id = u.id := by
  unfold normalizeUserStep
  split <;> rfl

/-- If no record with the given external id exists, the duplicate-key test of
the insert (which also constrains the provider) fails as well. -/
theorem any_pair_eq_false {l : List PaymentRecord} {oid : String}
    (h : l.find? (fun r => r.externalId == oid) = none) :
    l.any (fun r => r.provider == "paypal" && r.externalId == oid) = false := by
  rw [List.any_eq_false]
  intro r hr
  have := (List.find?_eq_none.mp h) r hr
  simp only [Bool.and_eq_true, not_and]
  intro _
  simpa using this

/-- Replacing the user documents whose id matches `u2.id` makes a subsequent
lookup by that id return `u2`, provided some user with that id was present. -/
theorem find?_map_replace (uid : String) (u u2 : User) (h2 : u2.id = uid) :
    ∀ l : List User, l.find? (fun v => v.id == uid) = some u →
      (l.map (fun v => if v.id = u2.id then u2 else v)).find?
        (fun v => v.id == uid) = some u2
  | [], hu => by simp at hu
  | v :: vs, hu => by
    by_cases hv : v.id = uid
    · simp only [List.map_cons]
      rw [show (if v.id = u2.id then u2 else v) = u2 from if_pos (by rw [h2, hv])]
      simp [List.find?_cons, h2]
    · have hvb : (v.id == uid) = false := by simpa using hv
      simp only [List.find?_cons, hvb] at hu
      simp only [List.map_cons]
      rw [show (if v.id = u2.id then u2 else v) = v from if_neg (by rw [h2]; exact hv)]
      simp only [List.find?_cons, hvb]
      exact find?_map_replace uid u u2 h2 vs hu

/-- After `saveUser s u2`, looking the user up by the id of `u2` yields `u2`,
provided some user with that id was present before. -/
theorem find?_saveUser (s : Store) (uid : String) (u u2 : User)
    (hu : s.users.find? (fun v => v.id == uid) = some u) (h2 : u2.id = uid) :
    (saveUser s u2).users.find? (fun v => v.id == uid) = some u2 :=
  find?_map_replace uid u u2 h2 s.users hu

/-- A worker step never removes a pair from the store. -/
theorem wstep_pairs_mono (w : WState) (s : CStore) :
    ∀ pr ∈ s.pairs, pr ∈ (wstep w s).2.pairs := by
  intro pr hpr
  cases hph : w.phase <;> simp only [wstep, hph] <;> try exact hpr
  · split_ifs <;> exact hpr
  · split_ifs <;> exact hpr
  · split_ifs <;> simp [hpr]

/-- `WInv` only reads the store through membership of the canonical pair, so
it transports along any store enlargement. -/
theorem winv_mono (e : String) (w : WState) (s s2 : CStore)
    (h : WInv e w s) (hm : ("paypal", e) ∈ s.pairs → ("paypal", e) ∈ s2.pairs) :
    WInv e w s2 := by
  obtain ⟨h1, h2, h3, h4, h5, h6, h7, h8⟩ := h
  exact ⟨h1, fun hp => hm (h2 hp), h3, fun st hp hi => hm (h4 st hp hi), h5, h6,
    h7, h8⟩

/-- One step of the active worker preserves the joint invariant. -/
theorem wstep_inv (e : String) (a b : WState) (s : CStore) (h : Inv e a b s) :
    Inv e (wstep a s).1 b (wstep a s).2 := by
  obtain ⟨⟨hcfg, hrace, hdone, hdnomem, hci, hcred, hraceF, hpre⟩, hB, hcanon,
    hcount, hle⟩ := h
  have hBmono : ∀ s2 : CStore, (("paypal", e) ∈ s.pairs → ("paypal", e) ∈ s2.pairs) →
      WInv e b s2 := fun s2 hm => winv_mono e b s s2 hB hm
  cases hph : a.phase with
  | pFind =>
    have hf := hpre (Or.inl hph)
    have hw : wstep a s = ({ a with phase := .pNorm, localBal := s.balance }, s) := by
      simp [wstep, hph]
    rw [hw]
    exact ⟨⟨hcfg, by simp, by simp, by simp, by simp [hf.1, hf.2], by simp,
      by simp, fun _ => ⟨hf.1, hf.2⟩⟩, hB, hcanon, hcount, hle⟩
  | pNorm =>
    have hf := hpre (Or.inr (Or.inl hph))
    by_cases hg : a.localBal > 1000
    · have hw : wstep a s =
          ({ a with phase := .pCheck, localBal := a.localBal / 1000 },
           { s with balance := a.localBal / 1000 }) := by
        simp [wstep, hph, hg]
      rw [hw]
      exact ⟨⟨hcfg, by simp, by simp, by simp, by simp [hf.1, hf.2], by simp,
        by simp, fun _ => ⟨hf.1, hf.2⟩⟩, hBmono _ (fun hm => hm), hcanon, hcount, hle⟩
    · have hw : wstep a s = ({ a with phase := .pCheck }, s) := by
        simp [wstep, hph, hg]
      rw [hw]
      exact ⟨⟨hcfg, by simp, by simp, by simp, by simp [hf.1, hf.2], by simp,
        by simp, fun _ => ⟨hf.1, hf.2⟩⟩, hB, hcanon, hcount, hle⟩
  | pCheck =>
    have hf := hpre (Or.inr (Or.inr (Or.inl hph)))
    by_cases hg : s.pairs.any (fun pr => pr.2 == a.cfg.externalId) = true
    · have hw : wstep a s = ({ a with phase := .pDone 409 }, s) := by
        simp only [wstep, hph, hg]
        simp
      rw [hw]
      have hmem : ("paypal", e) ∈ s.pairs := by
        obtain ⟨pr, hpr, hpe⟩ := List.any_eq_true.mp hg
        have : pr.2 = e := by
          have := (beq_iff_eq.mp hpe)
          rw [this, hcfg]
        have := hcanon pr hpr this
        rwa [this] at hpr
      exact ⟨⟨hcfg, by simp, fun st _ => by rw [hf.1, hf.2],
        fun st _ _ => hmem, by simp [hf.1, hf.2], by simp, by simp,
        by simp⟩, hB, hcanon, hcount, hle⟩
    · have hw : wstep a s = ({ a with phase := .pInsert }, s) := by
        simp only [wstep, hph]
        simp [hg]
      rw [hw]
      exact ⟨⟨hcfg, by simp, by simp, by simp, by simp [hf.1, hf.2], by simp,
        by simp, fun _ => ⟨hf.1, hf.2⟩⟩, hB, hcanon, hcount, hle⟩
  | pInsert =>
    have hf := hpre (Or.inr (Or.inr (Or.inr hph)))
    by_cases hg : s.pairs.any (fun pr => pr == ("paypal", a.cfg.externalId)) = true
    · have hw : wstep a s = ({ a with phase := .pRace }, s) := by
        simp only [wstep, hph, hg]
        simp
      rw [hw]
      have hmem : ("paypal", e) ∈ s.pairs := by
        obtain ⟨pr, hpr, hpe⟩ := List.any_eq_true.mp hg
        have : pr = ("paypal", e) := by
          rw [beq_iff_eq.mp hpe, hcfg]
        rwa [this] at hpr
      exact ⟨⟨hcfg, fun _ => hmem, by simp, by simp, by simp [hf.1, hf.2],
        by simp, fun _ => ⟨hf.1, hf.2⟩, by simp⟩, hB, hcanon, hcount, hle⟩
    · have hw : wstep a s =
          ({ a with phase := .pCredit, didInsert := true },
           { s with pairs := s.pairs ++ [("paypal", a.cfg.externalId)] }) := by
        simp only [wstep, hph]
        simp [hg]
      rw [hw]
      have hnotmem0 : ("paypal", a.cfg.externalId) ∉ s.pairs := by
        simpa using hg
      have hnotmem : ("paypal", e) ∉ s.pairs := by
        rw [hcfg] at hnotmem0
        exact hnotmem0
      have hzero : s.pairs.count ("paypal", e) = 0 := by
        rw [List.count_eq_zero]
        exact hnotmem
      have hbIns : b.didInsert = false := by
        cases hbi : b.didInsert
        · rfl
        · rw [hzero, hf.1, hbi] at hcount
          simp [b2n] at hcount
      have hcount2 :
          (s.pairs ++ [("paypal", a.cfg.externalId)]).count ("paypal", e) = 1 := by
        rw [List.count_append, hzero, hcfg]
        simp
      refine ⟨⟨hcfg, by simp, by simp, by simp, by simp, fun _ => ⟨rfl, hf.2⟩,
        by simp, by simp⟩, hBmono _ (fun hm => List.mem_append_left _ hm),
        ?_, ?_, ?_⟩
      · intro pr hpr hpe
        rcases List.mem_append.mp hpr with hin | hin
        · exact hcanon pr hin hpe
        · simp only [List.mem_singleton] at hin
          rw [hin, hcfg]
      · simp only [hcount2, hbIns]
        simp [b2n]
      · simp [hcount2]
  | pRace =>
    have hf := hraceF hph
    have hmem := hrace hph
    have hw : wstep a s = ({ a with phase := .pDone 200, localBal := s.balance }, s) := by
      simp [wstep, hph]
    rw [hw]
    exact ⟨⟨hcfg, by simp, fun st _ => by rw [hf.1, hf.2], fun st _ _ => hmem,
      by simp [hf.1, hf.2], by simp, by simp, by simp⟩, hB, hcanon, hcount, hle⟩
  | pCredit =>
    have hf := hcred hph
    have hw : wstep a s =
        (⟨a.cfg, .pDone 200, a.localBal + a.cfg.amt, a.didInsert, true⟩,
         { s with balance := a.localBal + a.cfg.amt }) := by
      simp [wstep, hph]
    rw [hw]
    refine ⟨⟨hcfg, by simp, ?_, ?_, fun _ => hf.1, by simp, by simp, by simp⟩,
      hBmono _ (fun hm => hm), hcanon, hcount, hle⟩
    · intro st _
      exact hf.1
    · intro st _ hI
      rw [hf.1] at hI
      cases hI
  | pDone st =>
    have hw : wstep a s = (a, s) := by
      simp [wstep, hph]
    rw [hw]
    exact ⟨⟨hcfg, hrace, hdone, hdnomem, hci, hcred, hraceF, hpre⟩, hB, hcanon,
      hcount, hle⟩

/-- The joint invariant is symmetric in the two workers. -/
theorem inv_swap (e : String) (a b : WState) (s : CStore) (h : Inv e a b s) :
    Inv e b a s := by
  obtain ⟨hA, hB, hc, hn, hl⟩ := h
  exact ⟨hB, hA, hc, by rw [hn, Nat.add_comm], hl⟩

/-- Running any schedule preserves the joint invariant. -/
theorem crun_inv (e : String) :
    ∀ (sched : List Bool) (a b : WState) (s : CStore), Inv e a b s →
      Inv e (crun sched a b s).1 (crun sched a b s).2.1 (crun sched a b s).2.2
  | [], a, b, s, h => h
  | t :: ts, a, b, s, h => by
    cases t with
    | true =>
      simp only [crun]
      exact crun_inv e ts _ _ _ (wstep_inv e a b s h)
    | false =>
      simp only [crun]
      exact crun_inv e ts _ _ _
        (inv_swap e _ _ _ (wstep_inv e b a s (inv_swap e a b s h)))

/-- From the invariant, two completed workers have performed exactly one
credit between them and the canonical pair is stored exactly once. -/
theorem inv_final (e : String) (A B : WState) (S : CStore) (st1 st2 : Nat)
    (h : Inv e A B S) (h1 : A.phase = .pDone st1) (h2 : B.phase = .pDone st2) :
    b2n A.didCredit + b2n B.didCredit = 1 ∧
    S.pairs.count ("paypal", e) = 1 := by
  obtain ⟨⟨_, _, hdA, hmA, _, _, _, _⟩, ⟨_, _, hdB, hmB, _, _, _, _⟩, _,
    hcount, hle⟩ := h
  have eA := hdA st1 h1
  have eB := hdB st2 h2
  cases hA : A.didInsert <;> cases hB : B.didInsert
  · have hmem := hmA st1 h1 hA
    have hz : S.pairs.count ("paypal", e) = 0 := by
      rw [hcount, hA, hB]
      simp [b2n]
    rw [List.count_eq_zero] at hz
    exact absurd hmem hz
  · constructor
    · rw [← eA, ← eB, hA, hB]
      simp [b2n]
    · rw [hcount, hA, hB]
      simp [b2n]
  · constructor
    · rw [← eA, ← eB, hA, hB]
      simp [b2n]
    · rw [hcount, hA, hB]
      simp [b2n]
  · rw [hcount, hA, hB] at hle
    simp [b2n] at hle

/-- The invariant holds initially for two fresh workers over a store holding
no pair with external id `e`. -/
theorem inv_init (e : String) (amt1 amt2 : ℚ) (s0 : CStore)
    (hinit : ∀ pr ∈ s0.pairs, pr.2 ≠ e) :
    Inv e (initWorker e amt1) (initWorker e amt2) s0 := by
  have hnm : ("paypal", e) ∉ s0.pairs := fun hm => hinit _ hm rfl
  have hz : s0.pairs.count ("paypal", e) = 0 := List.count_eq_zero.mpr hnm
  refine ⟨?_, ?_, ?_, ?_, ?_⟩
  · exact ⟨rfl, by simp [initWorker], by simp [initWorker], by simp [initWorker],
      by simp [initWorker], by simp [initWorker], by simp [initWorker],
      fun _ => ⟨rfl, rfl⟩⟩
  · exact ⟨rfl, by simp [initWorker], by simp [initWorker], by simp [initWorker],
      by simp [initWorker], by simp [initWorker], by simp [initWorker],
      fun _ => ⟨rfl, rfl⟩⟩
  · intro pr hpr hpe
    exact absurd hpe (hinit pr hpr)
  · rw [hz]
    simp [initWorker, b2n]
  · rw [hz]
    omega

/-- Claim C4: for every capture snapshot examined by `verifyPayPalPayment` —
fetched directly by captureId, or extracted as the first capture of the order —
the result is `verified = true` iff the capture status is `COMPLETED`, the
currency matches exactly, and the amount differs from the expected amount by
at most 0.01; any failing check yields `verified = false` as a normal `.ok`
result, not an exception. -/
theorem c4_capture_check_iff (p : Provider) (oid : String) (amt : ℚ) (cur : String)
    (cid : String) (cd : PayPalCaptureDetails) (od : PayPalOrderResponse) :
    (p.fetchCapture cid = .ok cd →
      ∃ r, verifyPayPalPayment p oid amt cur (some cid) = .ok r ∧
        (r.verified = true ↔
          (cd.status = "COMPLETED" ∧ cd.amount.currency_code = cur ∧
            |cd.amount.value - amt| ≤ (0.01 : ℚ))))
    ∧
    (p.fetchOrder oid = .ok od → od.status = "COMPLETED" →
      orderFirstCapture od = some cd →
      ∃ r, verifyPayPalPayment p oid amt cur none = .ok r ∧
        (r.verified = true ↔
          (cd.status = "COMPLETED" ∧ cd.amount.currency_code = cur ∧
            |cd.amount.value - amt| ≤ (0.01 : ℚ)))) := by
  constructor
  · intro h
    by_cases h1 : cd.status = "COMPLETED"
    · by_cases h2 : cd.amount.currency_code = cur
      · by_cases h3 : |cd.amount.value - amt| ≤ (0.01 : ℚ)
        · refine ⟨⟨true, some cd,
            match p.fetchOrder oid with
            | .ok o => some o
            | .error _ => none⟩, ?_, by simp [h1, h2, h3]⟩
          simp [verifyPayPalPayment, h, h1, h2, not_lt.mpr h3]
        · refine ⟨⟨false, some cd, none⟩, ?_, by simp [h3]⟩
          simp [verifyPayPalPayment, h, h1, h2, lt_of_not_le h3]
      · refine ⟨⟨false, some cd, none⟩, ?_, by simp [h2]⟩
        simp [verifyPayPalPayment, h, h1, h2]
    · refine ⟨⟨false, some cd, none⟩, ?_, by simp [h1]⟩
      simp [verifyPayPalPayment, h, h1]
  · intro h hst hfc
    by_cases h1 : cd.status = "COMPLETED"
    · by_cases h2 : cd.amount.currency_code = cur
      · by_cases h3 : |cd.amount.value - amt| ≤ (0.01 : ℚ)
        · refine ⟨⟨true, some cd, some od⟩, ?_, by simp [h1, h2, h3]⟩
          simp [verifyPayPalPayment, h, hst, hfc, h1, h2, not_lt.mpr h3]
        · refine ⟨⟨false, some cd, some od⟩, ?_, by simp [h3]⟩
          simp [verifyPayPalPayment, h, hst, hfc, h1, h2, lt_of_not_le h3]
      · refine ⟨⟨false, some cd, some od⟩, ?_, by simp [h2]⟩
        simp [verifyPayPalPayment, h, hst, hfc, h1, h2]
    · refine ⟨⟨false, some cd, some od⟩, ?_, by simp [h1]⟩
      simp [verifyPayPalPayment, h, hst, hfc, h1]

/-- Witness for C4: concrete instantiation on `pOkW` (capture `C1`,
`COMPLETED`, 5.00 GBP, expected 5 GBP). -/
theorem c4_capture_check_iff_witness :
    ∃ r, verifyPayPalPayment pOkW "O1" 5 "GBP" (some "C1") = .ok r ∧
      (r.verified = true ↔
        (cdOkW.status = "COMPLETED" ∧ cdOkW.amount.currency_code = "GBP" ∧
          |cdOkW.amount.value - 5| ≤ (0.01 : ℚ))) :=
  (c4_capture_check_iff pOkW "O1" 5 "GBP" "C1" cdOkW odOkW).1 rfl

/-- Claim C5: when the direct capture lookup fails with not-found but the
order lookup succeeds with a `COMPLETED` order whose first capture is
`COMPLETED` with matching currency and amount within tolerance, verification
returns `verified = true` via the order-fallback strategy. -/
theorem c5_order_fallback (p : Provider) (oid cid cur : String) (amt : ℚ)
    (cd : PayPalCaptureDetails) (od : PayPalOrderResponse)
    (hcap : p.fetchCapture cid = .error .notFound)
    (hord : p.fetchOrder oid = .ok od)
    (hos : od.status = "COMPLETED")
    (hfc : orderFirstCapture od = some cd)
    (hcs : cd.status = "COMPLETED")
    (hcur : cd.amount.currency_code = cur)
    (hamt : |cd.amount.value - amt| ≤ (0.01 : ℚ)) :
    verifyPayPalPayment p oid amt cur (some cid) = .ok ⟨true, some cd, some od⟩ := by
  simp [verifyPayPalPayment, hcap, hord, hos, hfc, hcs, hcur, not_lt.mpr hamt]

/-- Witness for C5: concrete instantiation on `pFallbackW` (capture 404s,
order `O1` completed and matching). -/
theorem c5_order_fallback_witness :
    verifyPayPalPayment pFallbackW "O1" 5 "GBP" (some "C1") =
      .ok ⟨true, some cdOkW, some odOkW⟩ :=
  c5_order_fallback pFallbackW "O1" "C1" "GBP" 5 cdOkW odOkW rfl rfl rfl rfl rfl rfl
    (by norm_num [cdOkW])

/-- Claim C6: when both the capture lookup and the order lookup fail with a
resource-not-found condition, `verifyPayPalPayment` raises the
environment-mismatch failure, which is distinguishable (a distinct
constructor) from an ordinary single not-found and from any other provider
error. -/
theorem c6_environment_mismatch (p : Provider) (oid cid cur : String) (amt : ℚ)
    (e : OrderErr)
    (hcap : p.fetchCapture cid = .error .notFound)
    (hord : p.fetchOrder oid = .error e)
    (h404 : orderErrIs404 e = true) :
    verifyPayPalPayment p oid amt cur (some cid) =
      .error (.environmentMismatch cid oid) ∧
    (∀ oid2, VerifyErr.environmentMismatch cid oid ≠ VerifyErr.orderNotFound oid2) ∧
    (∀ e2, VerifyErr.environmentMismatch cid oid ≠ VerifyErr.other e2) := by
  refine ⟨?_, ?_, ?_⟩
  · simp [verifyPayPalPayment, hcap, hord, h404]
  · intro oid2 h
    cases h
  · intro e2 h
    cases h

/-- Witness for C6: concrete instantiation on `pMissW` (capture 404,
order lookup throwing an HTTP 404 error). -/
theorem c6_environment_mismatch_witness :
    verifyPayPalPayment pMissW "O1" 5 "GBP" (some "C1") =
      .error (.environmentMismatch "C1" "O1") ∧
    (∀ oid2, VerifyErr.environmentMismatch "C1" "O1" ≠ VerifyErr.orderNotFound oid2) ∧
    (∀ e2, VerifyErr.environmentMismatch "C1" "O1" ≠ VerifyErr.other e2) :=
  c6_environment_mismatch pMissW "O1" "C1" "GBP" 5 (.httpStatus 404) rfl rfl (by decide)

/-- Claim C9: a request whose amount is not a finite positive number, or whose
orderId is absent or not a string, is rejected with HTTP 400 before any
provider network call and with no change to the stored state. -/
theorem c9_input_validation (envc : Env) (p : Provider) (uid : String)
    (body : PaymentBody) (s : Store)
    (h : body.amount = none ∨ (∃ a, body.amount = some a ∧ a ≤ 0) ∨
      body.orderId = none) :
    recordPayPalPayment envc p uid body s = ⟨400, none, s, false⟩ := by
  rcases h with h | ⟨a, ha, hle⟩ | h
  · simp [recordPayPalPayment, h]
  · simp [recordPayPalPayment, ha, hle]
  · cases hamt : body.amount with
    | none => simp [recordPayPalPayment, hamt]
    | some a =>
      by_cases hle : a ≤ 0
      · simp [recordPayPalPayment, hamt, hle]
      · simp [recordPayPalPayment, hamt, hle, h]

/-- Witness for C9: a request with a non-finite amount is rejected with 400,
an untouched store, and no provider call. -/
theorem c9_input_validation_witness :
    recordPayPalPayment envNoSkip pMissW "u1" bodyBad storeFresh =
      ⟨400, none, storeFresh, false⟩ :=
  c9_input_validation envNoSkip pMissW "u1" bodyBad storeFresh (Or.inl rfl)

/-- Claim C10: with `PAYPAL_SKIP_VERIFICATION=true` and sandbox mode both set,
a valid submission is treated as verified with no provider call: the payment
record is inserted with `metadata.verificationSkipped = true` (and
`metadata.verified = false`, since `verified: !env.paypalSkipVerification`),
the balance is credited by the major-unit amount, and `providerCalled` stays
false. -/
theorem c10_sandbox_skip (p : Provider) (uid : String) (body : PaymentBody)
    (s : Store) (u : User) (a : ℚ) (oid : String)
    (ha : body.amount = some a) (hpos : 0 < a)
    (ho : body.orderId = some oid) (hoe : oid ≠ "")
    (hu : s.users.find? (fun v => v.id == uid) = some u)
    (hdup : s.payments.find? (fun r => r.externalId == oid) = none) :
    recordPayPalPayment ⟨true, true⟩ p uid body s =
      ⟨200, some ((normalizeUserStep s u).1.balance + amountInPounds a),
        saveUser
          { (normalizeUserStep s u).2 with
            payments := (normalizeUserStep s u).2.payments ++
              [⟨uid, "paypal", a, body.currency, "completed", oid, body.captureId,
                false, true, true⟩] }
          { (normalizeUserStep s u).1 with
            balance := (normalizeUserStep s u).1.balance + amountInPounds a },
        false⟩ := by
  have hdup1 : (normalizeUserStep s u).2.payments.find?
      (fun r => r.externalId == oid) = none := by
    rw [normalizeUserStep_payments]
    exact hdup
  have hany : (normalizeUserStep s u).2.payments.any
      (fun r => r.provider == "paypal" && r.externalId == oid) = false :=
    any_pair_eq_false hdup1
  simp [recordPayPalPayment, ha, ho, hu, hoe, not_le.mpr hpos, hdup1, hany,
    insertAndCredit]

/-- Witness for C10: concrete skip-mode submission of 5000 minor units for
order `O9` against `storeSkip`. -/
theorem c10_sandbox_skip_witness :
    recordPayPalPayment ⟨true, true⟩ pMissW "u1" bodySkip storeSkip =
      ⟨200, some ((normalizeUserStep storeSkip ⟨"u1", 100⟩).1.balance +
          amountInPounds 5000),
        saveUser
          { (normalizeUserStep storeSkip ⟨"u1", 100⟩).2 with
            payments := (normalizeUserStep storeSkip ⟨"u1", 100⟩).2.payments ++
              [⟨"u1", "paypal", 5000, bodySkip.currency, "completed", "O9",
                bodySkip.captureId, false, true, true⟩] }
          { (normalizeUserStep storeSkip ⟨"u1", 100⟩).1 with
            balance := (normalizeUserStep storeSkip ⟨"u1", 100⟩).1.balance +
              amountInPounds 5000 },
        false⟩ :=
  c10_sandbox_skip pMissW "u1" bodySkip storeSkip ⟨"u1", 100⟩ 5000 "O9" rfl
    (by norm_num) rfl (by decide) rfl rfl

/-- Claim C7: balance normalization divides a stored balance by 1000 and
persists the result exactly when the balance exceeds 1000, and leaves the
account (and store) unchanged otherwise; the divisor is the same constant 1000
used by the minor-unit amount conversion; a legacy balance of 40050
normalizes to 40.05 through the handler (and is persisted), and 40.05 is a
fixed point of normalization. -/
theorem c7_normalization :
    (∀ (s : Store) (u : User), u.balance > 1000 →
      normalizeUserStep s u =
        (⟨u.id, u.balance / 1000⟩, saveUser s ⟨u.id, u.balance / 1000⟩))
    ∧ (∀ (s : Store) (u : User), u.balance ≤ 1000 → normalizeUserStep s u = (u, s))
    ∧ (∀ a : ℚ, amountInPounds a = a / 1000)
    ∧ (recordPayPalPayment envNoSkip pBig "u1" bodyBig storeLegacy).balance =
        some (40.05 : ℚ)
    ∧ (recordPayPalPayment envNoSkip pBig "u1" bodyBig storeLegacy).store.users =
        [⟨"u1", (40.05 : ℚ)⟩]
    ∧ normalizeUserStep ⟨[⟨"u1", (40.05 : ℚ)⟩], [recO1]⟩ ⟨"u1", (40.05 : ℚ)⟩ =
        (⟨"u1", (40.05 : ℚ)⟩, ⟨[⟨"u1", (40.05 : ℚ)⟩], [recO1]⟩) := by
  refine ⟨?_, ?_, ?_, ?_, ?_, ?_⟩
  · intro s u h
    simp [normalizeUserStep, h]
  · intro s u h
    simp [normalizeUserStep, not_lt.mpr h]
  · intro a
    rfl
  · norm_num [recordPayPalPayment, envNoSkip, bodyBig, storeLegacy, recO1,
      normalizeUserStep, saveUser, show ("O1" : String) ≠ "" from by decide]
  · norm_num [recordPayPalPayment, envNoSkip, bodyBig, storeLegacy, recO1,
      normalizeUserStep, saveUser, show ("O1" : String) ≠ "" from by decide]
  · norm_num [normalizeUserStep]

/-- Witness for C7: the legacy balance 40050 is divided by 1000 and persisted;
a balance of 0 is left untouched. -/
theorem c7_normalization_witness :
    normalizeUserStep storeLegacy ⟨"u1", 40050⟩ =
      (⟨"u1", (40050 : ℚ) / 1000⟩, saveUser storeLegacy ⟨"u1", (40050 : ℚ) / 1000⟩) ∧
    normalizeUserStep storeFresh ⟨"u1", 0⟩ = (⟨"u1", 0⟩, storeFresh) :=
  ⟨c7_normalization.1 storeLegacy ⟨"u1", 40050⟩ (by norm_num),
   c7_normalization.2.1 storeFresh ⟨"u1", 0⟩ (by norm_num)⟩

/-- Claim C2 counterexample: a duplicate caught by the pre-check lookup is
answered with HTTP 409 Conflict — an error status, not a success — refuting
the claim that both duplicate paths return a success outcome. -/
theorem c2_counterexample :
    (recordPayPalPayment envNoSkip pBig "u1" bodyBig storeDup).status = 409 ∧
    (recordPayPalPayment envNoSkip pBig "u1" bodyBig storeDup).status ≠ 200 := by
  have h : recordPayPalPayment envNoSkip pBig "u1" bodyBig storeDup =
      ⟨409, some 50, storeDup, false⟩ := by
    norm_num [recordPayPalPayment, envNoSkip, bodyBig, storeDup, recO1,
      normalizeUserStep, show ("O1" : String) ≠ "" from by decide]
  rw [h]
  exact ⟨rfl, by decide⟩

/-- Claim C2 (amended): a duplicate caught by the pre-check lookup returns
HTTP 409 Conflict whose body still carries the current (normalized) account
balance, with no insert, no credit and no provider call; a duplicate caught by
the duplicate-key rejection of the insert returns success (HTTP 200) with the
re-read current balance and leaves the store unchanged. In neither case is the
balance credited again. -/
theorem c2_duplicate_paths (envc : Env) (p : Provider) (uid : String)
    (body : PaymentBody) (s : Store) (u : User) (a : ℚ) (oid : String)
    (r0 : PaymentRecord) (uu : User) (pounds : ℚ) (newRecord : PaymentRecord)
    (user : User) (s1 : Store) (called : Bool) :
    (body.amount = some a → 0 < a → body.orderId = some oid → oid ≠ "" →
      s.users.find? (fun v => v.id == uid) = some u →
      s.payments.find? (fun r => r.externalId == oid) = some r0 →
      recordPayPalPayment envc p uid body s =
        ⟨409, some (normalizeUserStep s u).1.balance, (normalizeUserStep s u).2,
          false⟩)
    ∧
    (s1.payments.any (fun r => r.provider == "paypal" &&
        r.externalId == newRecord.externalId) = true →
      s1.users.find? (fun v => v.id == uid) = some uu →
      insertAndCredit uid pounds newRecord user s1 called =
        ⟨200, some uu.balance, s1, called⟩) := by
  constructor
  · intro ha hpos ho hoe hu hfound
    have hfound1 : (normalizeUserStep s u).2.payments.find?
        (fun r => r.externalId == oid) = some r0 := by
      rw [normalizeUserStep_payments]
      exact hfound
    simp [recordPayPalPayment, ha, ho, hoe, hu, not_le.mpr hpos, hfound1]
  · intro hany hfind
    simp [insertAndCredit, hany, hfind]

/-- Witness for C2 (amended): both duplicate paths at concrete inputs — the
pre-check path on `storeDup`, and the duplicate-key path of `insertAndCredit`
directly on a store already holding the `(paypal, O1)` record. -/
theorem c2_duplicate_paths_witness :
    recordPayPalPayment envNoSkip pBig "u1" bodyBig storeDup =
      ⟨409, some (normalizeUserStep storeDup ⟨"u1", 50⟩).1.balance,
        (normalizeUserStep storeDup ⟨"u1", 50⟩).2, false⟩ ∧
    insertAndCredit "u1" 5 recO1 ⟨"u1", 50⟩ storeDup true =
      ⟨200, some 50, storeDup, true⟩ :=
  ⟨(c2_duplicate_paths envNoSkip pBig "u1" bodyBig storeDup ⟨"u1", 50⟩ 2000000
      "O1" recO1 ⟨"u1", 50⟩ 5 recO1 ⟨"u1", 50⟩ storeDup true).1 rfl (by norm_num)
      rfl (by decide) rfl rfl,
   (c2_duplicate_paths envNoSkip pBig "u1" bodyBig storeDup ⟨"u1", 50⟩ 2000000
      "O1" recO1 ⟨"u1", 50⟩ 5 recO1 ⟨"u1", 50⟩ storeDup true).2 (by decide) rfl⟩

/-- Claim C1 counterexample: submitting the verified payment `O1` of 2000000
minor units twice sequentially does NOT return the same balance the second
time: the first call leaves balance 2000, and the second call first applies
the legacy-unit normalization heuristic (2000 > 1000), rewriting the balance
to 2 and returning 2 ≠ 2000. -/
theorem c1_counterexample :
    (recordPayPalPayment envNoSkip pBig "u1" bodyBig storeFresh).balance =
      some 2000 ∧
    (recordPayPalPayment envNoSkip pBig "u1" bodyBig
      (recordPayPalPayment envNoSkip pBig "u1" bodyBig storeFresh).store).balance =
      some 2 ∧
    (2 : ℚ) ≠ 2000 := by
  have h1 : recordPayPalPayment envNoSkip pBig "u1" bodyBig storeFresh =
      ⟨200, some 2000,
        ⟨[⟨"u1", 2000⟩],
          [⟨"u1", "paypal", 2000000, "GBP", "completed", "O1", some "CAP1",
            true, false, true⟩]⟩, true⟩ := by
    norm_num [recordPayPalPayment, envNoSkip, bodyBig, storeFresh,
      normalizeUserStep, amountInPounds, verifyPayPalPayment, pBig, odBig,
      cdBig, orderFirstCapture, insertAndCredit, saveUser,
      show ("O1" : String) ≠ "" from by decide]
  have h2 : recordPayPalPayment envNoSkip pBig "u1" bodyBig
      ⟨[⟨"u1", 2000⟩],
        [⟨"u1", "paypal", 2000000, "GBP", "completed", "O1", some "CAP1",
          true, false, true⟩]⟩ =
      ⟨409, some 2,
        ⟨[⟨"u1", 2⟩],
          [⟨"u1", "paypal", 2000000, "GBP", "completed", "O1", some "CAP1",
            true, false, true⟩]⟩, false⟩ := by
    norm_num [recordPayPalPayment, envNoSkip, bodyBig, normalizeUserStep,
      saveUser, show ("O1" : String) ≠ "" from by decide]
  refine ⟨by rw [h1], ?_, by norm_num⟩
  rw [h1]
  simp only
  rw [h2]

/-- Claim C1 (amended): submitting the same (provider, externalId) payment
twice credits the balance exactly once. Sequentially: the first call succeeds
with the credited balance, the second call inserts no second record, performs
no provider call, and returns the current account balance, which equals the
balance after the first call whenever that balance does not exceed 1000 (above
1000 the legacy-unit normalization heuristic rewrites it first); exactly one
record with the pair (paypal, orderId) is stored. Concurrently: in every
complete interleaving of two workers for the same external id over a store not
yet holding it, exactly one credit is performed and the pair is stored exactly
once. -/
theorem c1_exactly_once (envc : Env) (p : Provider) (uid : String)
    (body : PaymentBody) (s : Store) (u : User) (a : ℚ) (oid : String)
    (vr : VerificationResult)
    (ha : body.amount = some a) (hpos : 0 < a)
    (ho : body.orderId = some oid) (hoe : oid ≠ "")
    (hu : s.users.find? (fun v => v.id == uid) = some u)
    (hub : u.balance ≤ 1000)
    (hnodup : s.payments.find? (fun r => r.externalId == oid) = none)
    (henv : envc.paypalSkipVerification = false)
    (hver : verifyPayPalPayment p oid (amountInPounds a) body.currency
      body.captureId = .ok vr)
    (hvt : vr.verified = true)
    (hbound : u.balance + amountInPounds a ≤ 1000) :
    ((recordPayPalPayment envc p uid body s).status = 200 ∧
     (recordPayPalPayment envc p uid body s).balance =
       some (u.balance + amountInPounds a) ∧
     recordPayPalPayment envc p uid body
         (recordPayPalPayment envc p uid body s).store =
       ⟨409, some (u.balance + amountInPounds a),
         (recordPayPalPayment envc p uid body s).store, false⟩ ∧
     ((recordPayPalPayment envc p uid body s).store.payments.filter
       (fun r => r.provider == "paypal" && r.externalId == oid)).length = 1)
    ∧
    (∀ (sched : List Bool) (e : String) (amt1 amt2 : ℚ) (s0 : CStore)
        (st1 st2 : Nat),
      (∀ pr ∈ s0.pairs, pr.2 ≠ e) →
      (crun sched (initWorker e amt1) (initWorker e amt2) s0).1.phase =
        .pDone st1 →
      (crun sched (initWorker e amt1) (initWorker e amt2) s0).2.1.phase =
        .pDone st2 →
      b2n (crun sched (initWorker e amt1) (initWorker e amt2) s0).1.didCredit +
        b2n (crun sched (initWorker e amt1) (initWorker e amt2) s0).2.1.didCredit
          = 1 ∧
      (crun sched (initWorker e amt1) (initWorker e amt2) s0).2.2.pairs.count
        ("paypal", e) = 1) := by
  constructor
  · have hid : u.id = uid := by simpa using List.find?_some hu
    have hnorm : normalizeUserStep s u = (u, s) := by
      simp [normalizeUserStep, not_lt.mpr hub]
    have hany := any_pair_eq_false hnodup
    have hRoid : ∀ mc : Option String,
        (⟨uid, "paypal", a, body.currency, "completed", oid, mc, true, false,
          envc.paypalUseSandbox⟩ : PaymentRecord).externalId = oid := fun _ => rfl
    -- the record inserted by the first call
    set R : PaymentRecord :=
      ⟨uid, "paypal", a, body.currency, "completed", oid,
        (match vr.captureDetails with
         | some cd => some cd.id
         | none => body.captureId),
        true, false, envc.paypalUseSandbox⟩ with hR
    set user2 : User := ⟨u.id, u.balance + amountInPounds a⟩ with hu2
    set S2 : Store := { s with payments := s.payments ++ [R] } with hS2
    have h1 : recordPayPalPayment envc p uid body s =
        ⟨200, some (u.balance + amountInPounds a), saveUser S2 user2, true⟩ := by
      simp [recordPayPalPayment, ha, ho, hoe, hu, not_le.mpr hpos, hnorm,
        hnodup, henv, hver, hvt, insertAndCredit, hany, hR, hS2, hu2]
    have hu2id : user2.id = uid := hid
    have hfu : (saveUser S2 user2).users.find? (fun v => v.id == uid) =
        some user2 :=
      find?_saveUser S2 uid u user2 hu hu2id
    have hub2 : user2.balance ≤ 1000 := hbound
    have hnorm2 : normalizeUserStep (saveUser S2 user2) user2 =
        (user2, saveUser S2 user2) := by
      simp [normalizeUserStep, not_lt.mpr hub2]
    have hfind : (saveUser S2 user2).payments.find?
        (fun r => r.externalId == oid) = some R := by
      show (s.payments ++ [R]).find? (fun r => r.externalId == oid) = some R
      rw [List.find?_append, hnodup]
      simp [hR]
    have h2 : recordPayPalPayment envc p uid body (saveUser S2 user2) =
        ⟨409, some (u.balance + amountInPounds a), saveUser S2 user2, false⟩ := by
      simp [recordPayPalPayment, ha, ho, hoe, hfu, not_le.mpr hpos, hnorm2,
        hfind, hu2]
    have hfil : ((saveUser S2 user2).payments.filter
        (fun r => r.provider == "paypal" && r.externalId == oid)).length = 1 := by
      show ((s.payments ++ [R]).filter
        (fun r => r.provider == "paypal" && r.externalId == oid)).length = 1
      rw [List.filter_append]
      have hfl : s.payments.filter
          (fun r => r.provider == "paypal" && r.externalId == oid) = [] := by
        rw [List.filter_eq_nil_iff]
        intro r hr
        have := (List.find?_eq_none.mp hnodup) r hr
        simp only [Bool.and_eq_true, not_and]
        intro _
        simpa using this
      rw [hfl]
      simp [hR]
    rw [h1]
    exact ⟨rfl, rfl, h2, hfil⟩
  · intro sched e amt1 amt2 s0 st1 st2 hinit h1 h2
    exact inv_final e _ _ _ st1 st2
      (crun_inv e sched (initWorker e amt1) (initWorker e amt2) s0
        (inv_init e amt1 amt2 s0 hinit)) h1 h2

/-- Witness for C1 (amended): concrete double submission of verified order
`O5` (5000 minor units) for user `u1` with balance 100, plus the concurrent
clause quantified over all schedules. -/
theorem c1_exactly_once_witness :
    ((recordPayPalPayment envNoSkip pW5 "u1" bodyW5 storeSkip).status = 200 ∧
     (recordPayPalPayment envNoSkip pW5 "u1" bodyW5 storeSkip).balance =
       some ((100 : ℚ) + amountInPounds 5000) ∧
     recordPayPalPayment envNoSkip pW5 "u1" bodyW5
         (recordPayPalPayment envNoSkip pW5 "u1" bodyW5 storeSkip).store =
       ⟨409, some ((100 : ℚ) + amountInPounds 5000),
         (recordPayPalPayment envNoSkip pW5 "u1" bodyW5 storeSkip).store,
         false⟩ ∧
     ((recordPayPalPayment envNoSkip pW5 "u1" bodyW5 storeSkip).store.payments.filter
       (fun r => r.provider == "paypal" && r.externalId == "O5")).length = 1)
    ∧
    (∀ (sched : List Bool) (e : String) (amt1 amt2 : ℚ) (s0 : CStore)
        (st1 st2 : Nat),
      (∀ pr ∈ s0.pairs, pr.2 ≠ e) →
      (crun sched (initWorker e amt1) (initWorker e amt2) s0).1.phase =
        .pDone st1 →
      (crun sched (initWorker e amt1) (initWorker e amt2) s0).2.1.phase =
        .pDone st2 →
      b2n (crun sched (initWorker e amt1) (initWorker e amt2) s0).1.didCredit +
        b2n (crun sched (initWorker e amt1) (initWorker e amt2) s0).2.1.didCredit
          = 1 ∧
      (crun sched (initWorker e amt1) (initWorker e amt2) s0).2.2.pairs.count
        ("paypal", e) = 1) :=
  c1_exactly_once envNoSkip pW5 "u1" bodyW5 storeSkip ⟨"u1", 100⟩ 5000 "O5"
    ⟨true, some cdW5, some odW5⟩ rfl (by norm_num) rfl (by decide) rfl
    (by norm_num) rfl rfl
    (by norm_num [verifyPayPalPayment, pW5, odW5, cdW5, orderFirstCapture,
      amountInPounds, bodyW5])
    rfl (by norm_num [amountInPounds])

/-- Claim C3 exhibit: the order and capture retry loops are bounded — three
consecutive bare HTTP 503 responses sleep the backoff delays 1000 ms, 2000 ms,
3000 ms (1s, 2s, 3s), exhaust the 3 retries, and surface the failure — but
`getAccessToken` retries a bare 503 unconditionally, because in the source
retry condition (status 503, OR error name SERVICE_UNAVAILABLE and
`retryCount < maxRetries`) the retry bound binds only to the second
disjunct; on a provider answering every token request with 503 the recursion
never returns, whatever fuel it is given. -/
theorem c3_retry_bound :
    (∀ fuel retryCount,
      getAccessTokenLoop (all503 (α := String)) fuel retryCount = none)
    ∧ verifyPayPalOrderLoop (all503 (α := PayPalOrderResponse)) 0 =
        (.error (.httpStatus 503), [1000, 2000, 3000])
    ∧ verifyPayPalCaptureLoop (all503 (α := PayPalCaptureDetails)) 0 =
        (.error (.http 503), [1000, 2000, 3000]) := by
  refine ⟨?_, ?_, ?_⟩
  · intro fuel
    induction fuel with
    | zero =>
      intro rc
      rfl
    | succ n ih =>
      intro rc
      simp [getAccessTokenLoop, all503, ih]
  · have o3 : verifyPayPalOrderLoop (all503 (α := PayPalOrderResponse)) 3 =
        (.error (.httpStatus 503), []) := by
      unfold verifyPayPalOrderLoop
      norm_num [all503]
      intro h
      cases h
    have o2 : verifyPayPalOrderLoop (all503 (α := PayPalOrderResponse)) 2 =
        (.error (.httpStatus 503), [3000]) := by
      unfold verifyPayPalOrderLoop
      norm_num [all503, o3]
    have o1 : verifyPayPalOrderLoop (all503 (α := PayPalOrderResponse)) 1 =
        (.error (.httpStatus 503), [2000, 3000]) := by
      unfold verifyPayPalOrderLoop
      norm_num [all503, o2]
    unfold verifyPayPalOrderLoop
    norm_num [all503, o1]
  · have k3 : verifyPayPalCaptureLoop (all503 (α := PayPalCaptureDetails)) 3 =
        (.error (.http 503), []) := by
      unfold verifyPayPalCaptureLoop
      norm_num [all503]
      intro h
      cases h
    have k2 : verifyPayPalCaptureLoop (all503 (α := PayPalCaptureDetails)) 2 =
        (.error (.http 503), [3000]) := by
      unfold verifyPayPalCaptureLoop
      norm_num [all503, k3]
    have k1 : verifyPayPalCaptureLoop (all503 (α := PayPalCaptureDetails)) 1 =
        (.error (.http 503), [2000, 3000]) := by
      unfold verifyPayPalCaptureLoop
      norm_num [all503, k2]
    unfold verifyPayPalCaptureLoop
    norm_num [all503, k1]

/-- Claim C8 exhibit: the credit is a read-modify-write (`user.balance +=
amountInPounds; user.save()` against the document read by `findById`), not a
store-level atomic increment: in the interleaving `schedLost`, both workers
credit the same account (initial balance 5, amounts 1 and 2), yet the final
balance is 7, not 5 + 1 + 2 = 8 — the save of worker b overwrites the credit
of worker a, losing an update. -/
theorem c8_lost_update :
    (crun schedLost (initWorker "O1" 1) (initWorker "O2" 2) ⟨5, []⟩).1.didCredit
      = true ∧
    (crun schedLost (initWorker "O1" 1) (initWorker "O2" 2) ⟨5, []⟩).2.1.didCredit
      = true ∧
    (crun schedLost (initWorker "O1" 1) (initWorker "O2" 2) ⟨5, []⟩).2.2.balance
      = 7 ∧
    (7 : ℚ) ≠ 5 + 1 + 2 := by
  have ne12 : ("O1" : String) ≠ "O2" := by decide
  have e1 : wstep (initWorker "O1" 1) ⟨5, []⟩ =
      (⟨⟨"O1", 1⟩, .pNorm, 5, false, false⟩, ⟨5, []⟩) := by
    norm_num [wstep, initWorker]
  have e2 : wstep (initWorker "O2" 2) ⟨5, []⟩ =
      (⟨⟨"O2", 2⟩, .pNorm, 5, false, false⟩, ⟨5, []⟩) := by
    norm_num [wstep, initWorker]
  have e3 : wstep ⟨⟨"O1", 1⟩, .pNorm, 5, false, false⟩ ⟨5, []⟩ =
      (⟨⟨"O1", 1⟩, .pCheck, 5, false, false⟩, ⟨5, []⟩) := by
    norm_num [wstep]
  have e4 : wstep ⟨⟨"O1", 1⟩, .pCheck, 5, false, false⟩ ⟨5, []⟩ =
      (⟨⟨"O1", 1⟩, .pInsert, 5, false, false⟩, ⟨5, []⟩) := by
    norm_num [wstep]
  have e5 : wstep ⟨⟨"O1", 1⟩, .pInsert, 5, false, false⟩ ⟨5, []⟩ =
      (⟨⟨"O1", 1⟩, .pCredit, 5, true, false⟩, ⟨5, [("paypal", "O1")]⟩) := by
    norm_num [wstep]
  have e6 : wstep ⟨⟨"O1", 1⟩, .pCredit, 5, true, false⟩ ⟨5, [("paypal", "O1")]⟩ =
      (⟨⟨"O1", 1⟩, .pDone 200, 6, true, true⟩, ⟨6, [("paypal", "O1")]⟩) := by
    norm_num [wstep]
  have e7 : wstep ⟨⟨"O2", 2⟩, .pNorm, 5, false, false⟩ ⟨6, [("paypal", "O1")]⟩ =
      (⟨⟨"O2", 2⟩, .pCheck, 5, false, false⟩, ⟨6, [("paypal", "O1")]⟩) := by
    norm_num [wstep]
  have e8 : wstep ⟨⟨"O2", 2⟩, .pCheck, 5, false, false⟩ ⟨6, [("paypal", "O1")]⟩ =
      (⟨⟨"O2", 2⟩, .pInsert, 5, false, false⟩, ⟨6, [("paypal", "O1")]⟩) := by
    norm_num [wstep, ne12]
  have e9 : wstep ⟨⟨"O2", 2⟩, .pInsert, 5, false, false⟩ ⟨6, [("paypal", "O1")]⟩ =
      (⟨⟨"O2", 2⟩, .pCredit, 5, true, false⟩,
       ⟨6, [("paypal", "O1"), ("paypal", "O2")]⟩) := by
    norm_num [wstep, ne12]
  have e10 : wstep ⟨⟨"O2", 2⟩, .pCredit, 5, true, false⟩
      ⟨6, [("paypal", "O1"), ("paypal", "O2")]⟩ =
      (⟨⟨"O2", 2⟩, .pDone 200, 7, true, true⟩,
       ⟨7, [("paypal", "O1"), ("paypal", "O2")]⟩) := by
    norm_num [wstep]
  have h : crun schedLost (initWorker "O1" 1) (initWorker "O2" 2) ⟨5, []⟩ =
      (⟨⟨"O1", 1⟩, .pDone 200, 6, true, true⟩,
       ⟨⟨"O2", 2⟩, .pDone 200, 7, true, true⟩,
       ⟨7, [("paypal", "O1"), ("paypal", "O2")]⟩) := by
    simp [schedLost, crun, e1, e2, e3, e4, e5, e6, e7, e8, e9, e10]
  rw [h]
  exact ⟨rfl, rfl, rfl, by norm_num⟩

end AiBackend
